import Mathlib

/-!
Verification development for the scoring and code-execution core of the
AIInterviewMaster recruitment platform.

The definitions below are a shallow embedding of the Python sources
`src/config.py`, `src/utils/scoring.py`, `src/utils/code_execution.py` and
`src/utils/profile_parser.py`.  Python floats are modelled as exact
rationals, Python dictionaries either as typed structures with `Option`
fields (a `none` field models an absent key) or, where malformed values
matter, as association lists of a dynamic value type.  The theorems at the
end of the file settle the specification claims about this code.
-/

namespace AIInterviewMaster

/-! Model of `src/config.py`: the scoring weight configuration.  The
`SCORING_CONFIG` dictionary always carries the four weight keys; the
aggregator reads them with defaults equal to the configured values, so the
configuration is modelled as a structure of four rationals. -/

/-- Weight configuration, mirroring the keys of `SCORING_CONFIG` in
`src/config.py` (fields in the order profile, video, coding, managerial). -/
structure ScoringWeights where
  profile_weight : ℚ
  video_interview_weight : ℚ
  coding_challenge_weight : ℚ
  managerial_round_weight : ℚ

/-- The configured default weights of `src/config.py` lines 39 to 44. -/
def SCORING_CONFIG : ScoringWeights :=
  ⟨2/10, 3/10, 4/10, 1/10⟩

/-! Model of `calculate_final_candidate_score` in `src/utils/scoring.py`
lines 289 to 362.  The function is parameterised by the weight
configuration (the source reads the module-level `SCORING_CONFIG`, which
the spec calls overridable).  Its `try` body performs only float
arithmetic on its float arguments, so the `except` branch is unreachable
for in-type inputs and the embedding is a total function. -/

/-- Result dictionary of `calculate_final_candidate_score`: the echoed
phase scores, the overall score and the qualitative assessment label. -/
structure FinalScoreResult where
  profile_score : ℚ
  video_score : ℚ
  coding_score : ℚ
  managerial_score : Option ℚ
  overall_candidate_score : ℚ
  assessment : String

/-- The qualitative assessment ladder of `src/utils/scoring.py` lines 346
to 356: the first threshold at or below the overall score decides the
label. -/
def assessmentOf (overall_score : ℚ) : String :=
  if 85/100 ≤ overall_score then "Excellent Candidate"
  else if 75/100 ≤ overall_score then "Strong Candidate"
  else if 65/100 ≤ overall_score then "Good Candidate"
  else if 5/10 ≤ overall_score then "Average Candidate"
  else "Below Average Candidate"

/-- Embedding of `calculate_final_candidate_score`: weighted sum of the
phase scores; when the managerial score is absent the three remaining
weights are each divided by `1 - managerial_round_weight`. -/
def calculate_final_candidate_score (config : ScoringWeights)
    (profile_score video_score coding_score : ℚ)
    (managerial_score : Option ℚ) : FinalScoreResult :=
  let overall_score : ℚ :=
    match managerial_score with
    | some m =>
        profile_score * config.profile_weight +
        video_score * config.video_interview_weight +
        coding_score * config.coding_challenge_weight +
        m * config.managerial_round_weight
    | none =>
        profile_score * (config.profile_weight / (1 - config.managerial_round_weight)) +
        video_score * (config.video_interview_weight / (1 - config.managerial_round_weight)) +
        coding_score * (config.coding_challenge_weight / (1 - config.managerial_round_weight))
  ⟨profile_score, video_score, coding_score, managerial_score,
    overall_score, assessmentOf overall_score⟩

/-! Model of `calculate_profile_score` in `src/utils/scoring.py` lines 7
to 56.  The three analysis dictionaries are modelled as typed structures
with `Option` fields; an outer `none` models a `None` (or empty, hence
falsy) dictionary argument and an inner `none` an absent key. -/

/-- One entry of `resume_analysis.skill_analysis.identified_skills`; the
`confidence` key is read with default 0. -/
structure ResumeSkill where
  confidence : Option ℚ

/-- The `skill_analysis` sub-dictionary of a resume analysis. -/
structure SkillAnalysis where
  identified_skills : List ResumeSkill

/-- A resume analysis dictionary; `none` in `skill_analysis` models the
key being absent. -/
structure ResumeAnalysis where
  skill_analysis : Option SkillAnalysis

/-- A GitHub analysis dictionary; `none` models an absent
`overall_github_score` key. -/
structure GithubAnalysis where
  overall_github_score : Option ℚ

/-- A LinkedIn analysis dictionary; `none` models an absent
`skill_confidence` key. -/
structure LinkedinAnalysis where
  skill_confidence : Option ℚ

/-- Result dictionary of `calculate_profile_score`. -/
structure ProfileScores where
  github_score : ℚ
  resume_score : ℚ
  linkedin_score : ℚ
  overall_profile_score : ℚ

/-- Mean of the strictly positive entries of a list, 0 when there are
none.  This mirrors lines 45 to 50 of `src/utils/scoring.py` and is also
the operation the spec describes as the mean over present, nonzero
sources. -/
def meanOfPositives (xs : List ℚ) : ℚ :=
  let available := xs.filter (fun s => 0 < s)
  if available.length = 0 then 0 else available.sum / available.length

/-- Embedding of `calculate_profile_score`: extract a GitHub, resume and
LinkedIn score (0 when the source is absent), then average the strictly
positive ones. -/
def calculate_profile_score (github_analysis : Option GithubAnalysis)
    (resume_analysis : Option ResumeAnalysis)
    (linkedin_analysis : Option LinkedinAnalysis) : ProfileScores :=
  let github_score : ℚ :=
    match github_analysis with
    | some g =>
        match g.overall_github_score with
        | some q => q
        | none => 0
    | none => 0
  let resume_score : ℚ :=
    match resume_analysis with
    | some r =>
        match r.skill_analysis with
        | some sa =>
            let skills := sa.identified_skills
            if skills.length = 0 then 0
            else (skills.map (fun s => s.confidence.getD 0)).sum / skills.length
        | none => 0
    | none => 0
  let linkedin_score : ℚ :=
    match linkedin_analysis with
    | some l =>
        match l.skill_confidence with
        | some q => q
        | none => 0
    | none => 0
  ⟨github_score, resume_score, linkedin_score,
    meanOfPositives [github_score, resume_score, linkedin_score]⟩

/-! Model of `src/utils/code_execution.py`.  The remote judge is a
collaborator: each call of `execute_code` performs one HTTP POST (create
submission) followed by a bounded sequence of HTTP GET polls.  The
environment `JudgeEnv` records what the network returns for the POST and
for each successive poll; a transport failure (`requests` exception,
including `raise_for_status`) is a `NetResp.exn`.  The base64 transport
encoding of the textual payloads is abstracted: the environment carries
the already decoded texts, since decoding is a bijective recoding the
claims never mention.  Python `time.sleep(1)` calls are recorded in the
trace as their durations in seconds. -/

/-- Python string lowering (`str.lower`), used by `get_language_id`. -/
def pyLower (s : String) : String := String.mk (s.data.map Char.toLower)

/-- Python whitespace for `str.strip`. -/
def isPySpace (c : Char) : Bool :=
  c = ' ' || c = '\t' || c = '\n' || c = '\r' || c = '\x0b' || c = '\x0c'

/-- Python `str.strip()`: remove leading and trailing whitespace. -/
def pyStrip (s : String) : String :=
  String.mk (((s.data.dropWhile isPySpace).reverse.dropWhile isPySpace).reverse)

/-- The `SUPPORTED_LANGUAGES` table of `src/config.py` lines 47 to 58. -/
def SUPPORTED_LANGUAGES : List (String × Nat) :=
  [("python", 71), ("javascript", 63), ("java", 62), ("c", 50), ("cpp", 54),
   ("csharp", 51), ("go", 60), ("ruby", 72), ("rust", 73), ("typescript", 74)]

/-- Embedding of `get_language_id`: dictionary lookup of the lowered
language name. -/
def get_language_id (language : String) : Option Nat :=
  SUPPORTED_LANGUAGES.lookup (pyLower language)

/-- Outcome of one network interaction: the parsed response body, or a
`requests` exception carrying a message. -/
inductive NetResp (α : Type) where
  | ok (val : α)
  | exn (msg : String)

/-- Parsed body of one GET on `/submissions/{token}`: the nested
`status.id` and `status.description` fields and the (decoded) payload
fields, each `none` when absent from the JSON object. -/
structure PollResponse where
  status_id : Option Nat
  status_description : Option String
  stdout : Option String
  stderr : Option String
  compile_output : Option String
  time : Option String
  memory : Option Nat
  exit_code : Option Int

/-- The judge side of one `execute_code` call: the token field of the
create-submission response and the successive poll responses. -/
structure JudgeEnv where
  post : NetResp (Option String)
  poll : Nat → NetResp PollResponse

/-- Result dictionary of `execute_code`.  Error returns carry only
`status` and `message`; success returns carry the decoded payloads. -/
structure ExecResult where
  status : String
  message : Option String
  status_id : Option Nat
  status_description : Option String
  stdout : Option String
  stderr : Option String
  compile_output : Option String
  time : Option String
  memory : Option Nat
  exit_code : Option Int
  token : Option String

/-- The `{"status": "error", "message": m}` dictionaries returned on every
error path of `execute_code`. -/
def errorResult (m : String) : ExecResult :=
  ⟨"error", some m, none, none, none, none, none, none, none, none, none⟩

/-- The success dictionary built from a terminal poll response
(`src/utils/code_execution.py` lines 107 to 123); absent payloads decode
to the empty string. -/
def successResult (resp : PollResponse) (token : String) : ExecResult :=
  ⟨"success", none, resp.status_id, some (resp.status_description.getD ""),
    some (resp.stdout.getD ""), some (resp.stderr.getD ""),
    some (resp.compile_output.getD ""), resp.time, resp.memory,
    resp.exit_code, some token⟩

/-- Observable effects of one `execute_code` call: how many POSTs and
polls went out and the durations (in seconds) of the sleeps performed. -/
structure ExecTrace where
  postCalls : Nat
  pollCalls : Nat
  sleeps : List Nat

/-- How a Python call ends: a returned value or an uncaught exception. -/
inductive PyOutcome (α : Type) where
  | returns (val : α)
  | raises (exc : String)

/-- The polling loop of `execute_code` (lines 87 to 125): at most
`attempts` polls; a status id of 1 (In Queue) or 2 (Processing) consumes
an attempt and sleeps one second, any other response returns immediately,
exhausted attempts yield the timeout error.  Returns the loop outcome (a
transport exception propagates as `Except.error`), the number of polls
made and the sleep durations. -/
def pollLoop (env : JudgeEnv) (token : String) (attempts : Nat) (idx : Nat) :
    Except String ExecResult × Nat × List Nat :=
  match attempts with
  | 0 => (Except.ok (errorResult "Timeout waiting for execution results"), 0, [])
  | a + 1 =>
    match env.poll idx with
    | NetResp.exn m => (Except.error m, 1, [])
    | NetResp.ok resp =>
      if resp.status_id = some 1 ∨ resp.status_id = some 2 then
        let rest := pollLoop env token a (idx + 1)
        (rest.1, rest.2.1 + 1, 1 :: rest.2.2)
      else
        (Except.ok (successResult resp token), 1, [])

/-- Embedding of `execute_code`: reject unsupported languages before any
network call (Python falsiness also rejects a zero language id), then
create a submission and poll for its result with the bounded loop.  All
transport exceptions are caught and converted to error results, so the
call always returns. -/
def execute_code (source_code language stdin : String) (env : JudgeEnv) :
    PyOutcome ExecResult × ExecTrace :=
  let lid := get_language_id language
  if lid = none ∨ lid = some 0 then
    (PyOutcome.returns (errorResult ("Unsupported language: " ++ language)), ⟨0, 0, []⟩)
  else
    match env.post with
    | NetResp.exn m =>
        (PyOutcome.returns (errorResult ("Request error: " ++ m)), ⟨1, 0, []⟩)
    | NetResp.ok tok =>
        match tok with
        | none =>
            (PyOutcome.returns (errorResult "Failed to create submission"), ⟨1, 0, []⟩)
        | some t =>
            if t = "" then
              (PyOutcome.returns (errorResult "Failed to create submission"), ⟨1, 0, []⟩)
            else
              let r := pollLoop env t 10 0
              match r.1 with
              | Except.error m =>
                  (PyOutcome.returns (errorResult ("Request error: " ++ m)), ⟨1, r.2.1, r.2.2⟩)
              | Except.ok res =>
                  (PyOutcome.returns res, ⟨1, r.2.1, r.2.2⟩)

/-- The result dictionary a caller of `execute_code` observes (the
function never lets an exception escape). -/
def execute_code_result (source_code language stdin : String) (env : JudgeEnv) : ExecResult :=
  match (execute_code source_code language stdin env).1 with
  | PyOutcome.returns r => r
  | PyOutcome.raises _ => errorResult "unreachable"

/-! Model of `run_test_cases` (`src/utils/code_execution.py` lines 134 to
193).  The judge state may differ between the successive `execute_code`
calls, so the world is a sequence of judge environments, one per call:
call `i` (for test case `i`) consumes `envs i`. -/

/-- A test-case dictionary; `none` models an absent key, read with
default `""`. -/
structure TestCase where
  input : Option String
  expected_output : Option String

/-- One entry of the `results` list of `run_test_cases`. -/
structure TestCaseResult where
  test_case_id : Nat
  passed : Bool
  input : String
  expected_output : String
  actual_output : String
  error_message : Option String
  error_output : Option String
  execution_time : Option String
  memory_usage : Option Nat

/-- The body of the loop of `run_test_cases` for the test case at
0-based index `i`: execute once, record an execution error as a failed
case, otherwise compare stripped outputs. -/
def run_single_case (source_code language : String) (i : Nat) (tc : TestCase)
    (env : JudgeEnv) : TestCaseResult :=
  let input_data := tc.input.getD ""
  let expected_output := pyStrip (tc.expected_output.getD "")
  let r := execute_code_result source_code language input_data env
  if r.status = "error" then
    ⟨i + 1, false, input_data, expected_output, "Execution error",
      some (r.message.getD "Unknown error"), none, none, none⟩
  else
    let actual_output := pyStrip (r.stdout.getD "")
    ⟨i + 1, actual_output = expected_output, input_data, expected_output,
      actual_output, none, some (r.stderr.getD ""), r.time, r.memory⟩

/-- Result dictionary of `run_test_cases`. -/
structure TestRunResult where
  status : String
  total_test_cases : Nat
  passed_test_cases : Nat
  success_rate : ℚ
  results : List TestCaseResult

/-- Embedding of `run_test_cases`: run every case once, in order, then
aggregate the pass count and the success rate (0 when there are no
cases). -/
def run_test_cases (source_code language : String) (test_cases : List TestCase)
    (envs : Nat → JudgeEnv) : TestRunResult :=
  let results := test_cases.enum.map
    (fun p => run_single_case source_code language p.1 p.2 (envs p.1))
  let total_cases := test_cases.length
  let passed_cases := (results.filter (fun r => r.passed)).length
  ⟨"success", total_cases, passed_cases,
    if 0 < total_cases then (passed_cases : ℚ) / (total_cases : ℚ) else 0,
    results⟩

/-! Model of `match_candidate_to_job` (`src/utils/profile_parser.py`
lines 302 to 384).  Candidate skills and job skill items are typed
records (the claims concern well-formed inputs, so the `except` branch
for malformed dictionaries is out of scope here). -/

/-- One candidate skill entry: a name and a confidence. -/
structure CandidateSkill where
  skill : String
  confidence : ℚ

/-- One job skill requirement entry; `none` models an absent `context`
key, read with default `""`. -/
structure JobSkillItem where
  skill : String
  context : Option String

/-- The categorized job skill dictionary. -/
structure JobSkills where
  essential_skills : List JobSkillItem
  preferred_skills : List JobSkillItem

/-- A matched-skill record (name, candidate confidence, job context). -/
structure SkillMatchEntry where
  skill : String
  confidence : ℚ
  job_context : String

/-- A gap record (name and job context only). -/
structure SkillGapEntry where
  skill : String
  job_context : String

/-- Result dictionary of `match_candidate_to_job`. -/
structure MatchResult where
  essential_match_score : ℚ
  preferred_match_score : ℚ
  overall_match_score : ℚ
  essential_matches : List SkillMatchEntry
  essential_gaps : List SkillGapEntry
  preferred_matches : List SkillMatchEntry
  preferred_gaps : List SkillGapEntry

/-- The dictionary comprehension of line 315: keys are lowered skill
names; a later duplicate overwrites an earlier one, so lookup is on the
reversed list. -/
def candidate_skill_dict (candidate_skills : List CandidateSkill) (key : String) : Option ℚ :=
  (candidate_skills.reverse.map (fun s => (pyLower s.skill, s.confidence))).lookup key

/-- Classify one tier of job skills into matches and gaps. -/
def classifySkills (candidate_skills : List CandidateSkill)
    (items : List JobSkillItem) : List SkillMatchEntry × List SkillGapEntry :=
  (items.filterMap
    (fun it => (candidate_skill_dict candidate_skills (pyLower it.skill)).map
      (fun conf => SkillMatchEntry.mk it.skill conf (it.context.getD ""))),
   (items.filter
      (fun it => (candidate_skill_dict candidate_skills (pyLower it.skill)).isNone)).map
     (fun it => SkillGapEntry.mk it.skill (it.context.getD "")))

/-- Embedding of `match_candidate_to_job`: per-tier match/gap lists, a
matched fraction per tier (1.0 on an empty tier) and the fixed 0.7/0.3
weighted overall score. -/
def match_candidate_to_job (candidate_skills : List CandidateSkill)
    (job_skills : JobSkills) : MatchResult :=
  let essential := classifySkills candidate_skills job_skills.essential_skills
  let preferred := classifySkills candidate_skills job_skills.preferred_skills
  let essential_count := job_skills.essential_skills.length
  let essential_match_score : ℚ :=
    if 0 < essential_count then (essential.1.length : ℚ) / (essential_count : ℚ) else 1
  let preferred_count := job_skills.preferred_skills.length
  let preferred_match_score : ℚ :=
    if 0 < preferred_count then (preferred.1.length : ℚ) / (preferred_count : ℚ) else 1
  let overall_match_score := essential_match_score * (7/10) + preferred_match_score * (3/10)
  ⟨essential_match_score, preferred_match_score, overall_match_score,
    essential.1, essential.2, preferred.1, preferred.2⟩

/-! Dynamic-value model for the calculators whose claims quantify over
malformed inputs (`calculate_video_interview_score`, lines 58 to 97, and
`calculate_coding_challenge_score`, lines 99 to 149 of
`src/utils/scoring.py`).  A dictionary value is a number, a string or
`None`; multiplying a non-number by a float weight raises a `TypeError`
inside the `try` body, which the `except` arm converts into a zeroed
result carrying an `error` field.  The exact CPython exception text is an
interpreter detail; the model uses a fixed representative message. -/

/-- A dynamic Python value as far as these calculators observe it. -/
inductive PyVal where
  | num (q : ℚ)
  | str (s : String)
  | noneV
deriving DecidableEq

/-- A Python dictionary with string keys. -/
abbrev PyDict := List (String × PyVal)

/-- Python `dict.get(key, default)`. -/
def pyGet (d : PyDict) (key : String) (dflt : PyVal) : PyVal :=
  match d.lookup key with
  | some v => v
  | none => dflt

/-- Numeric coercion for float multiplication: defined exactly on
numbers; anything else raises. -/
def PyVal.toNum : PyVal → Option ℚ
  | PyVal.num q => some q
  | _ => none

/-- Representative text of the `TypeError` raised when a weight
multiplies a non-numeric score. -/
def typeErrorMsg : String := "unsupported operand type for *"

/-- Embedding of `calculate_video_interview_score`: weighted sum
0.5/0.3/0.2 of the three component scores when they are numeric,
otherwise the zeroed error dictionary built by the `except` arm. -/
def calculate_video_interview_score (video_analysis : PyDict) : PyDict :=
  let technical_score := pyGet video_analysis "technical_knowledge_score" (PyVal.num 0)
  let communication_score := pyGet video_analysis "communication_score" (PyVal.num 0)
  let reasoning_score := pyGet video_analysis "logical_reasoning_score" (PyVal.num 0)
  match technical_score.toNum, communication_score.toNum, reasoning_score.toNum with
  | some t, some c, some r =>
      let overall_score := t * (5/10) + c * (3/10) + r * (2/10)
      [("technical_score", technical_score),
       ("communication_score", communication_score),
       ("reasoning_score", reasoning_score),
       ("overall_video_score", PyVal.num overall_score)]
  | _, _, _ =>
      [("error", PyVal.str typeErrorMsg), ("overall_video_score", PyVal.num 0)]

/-- Embedding of `calculate_coding_challenge_score`: weighted sum
0.4/0.3/0.1/0.1/0.1 of the five component scores when they are numeric,
otherwise the zeroed error dictionary built by the `except` arm. -/
def calculate_coding_challenge_score (code_analysis test_results : PyDict) : PyDict :=
  let correctness_score := pyGet code_analysis "correctness_score" (PyVal.num 0)
  let time_complexity_score := pyGet code_analysis "time_complexity_score" (PyVal.num 0)
  let space_complexity_score := pyGet code_analysis "space_complexity_score" (PyVal.num 0)
  let code_style_score := pyGet code_analysis "code_style_score" (PyVal.num 0)
  let test_success_rate := pyGet test_results "success_rate" (PyVal.num 0)
  match correctness_score.toNum, test_success_rate.toNum, time_complexity_score.toNum,
      space_complexity_score.toNum, code_style_score.toNum with
  | some cq, some tq, some timeq, some spaceq, some styleq =>
      let overall_score :=
        cq * (4/10) + tq * (3/10) + timeq * (1/10) + spaceq * (1/10) + styleq * (1/10)
      [("correctness_score", correctness_score),
       ("test_success_rate", test_success_rate),
       ("time_complexity_score", time_complexity_score),
       ("space_complexity_score", space_complexity_score),
       ("code_style_score", code_style_score),
       ("overall_coding_score", PyVal.num overall_score)]
  | _, _, _, _, _ =>
      [("error", PyVal.str typeErrorMsg), ("overall_coding_score", PyVal.num 0)]

/-! Concrete judge environments used as test fixtures by the claim
theorems. -/

/-- A poll response in status 2 (Processing). -/
def processingResponse : PollResponse :=
  ⟨some 2, some "Processing", none, none, none, none, none, none⟩

/-- A terminal poll response in status 3 (Accepted) with a payload. -/
def acceptedResponse : PollResponse :=
  ⟨some 3, some "Accepted", some "42", some "", none, some "0.01", some 912, some 0⟩

/-- A judge that reports Processing for the first `n` polls and then
Accepted. -/
def slowJudge (n : Nat) : JudgeEnv :=
  ⟨NetResp.ok (some "token-1"),
   fun i => if i < n then NetResp.ok processingResponse else NetResp.ok acceptedResponse⟩

/-- A judge that reports Processing on every poll. -/
def stuckJudge : JudgeEnv :=
  ⟨NetResp.ok (some "token-1"), fun _ => NetResp.ok processingResponse⟩

/-- A judge whose transport always fails. -/
def unreachableJudge : JudgeEnv :=
  ⟨NetResp.exn "connection refused", fun _ => NetResp.exn "connection refused"⟩

/-! Theorems settling the claims. -/

/-- Helper: the polling loop makes at most `attempts` polls and every
recorded sleep lasts one second. -/
theorem pollLoop_calls_le (env : JudgeEnv) (token : String) :
    ∀ (attempts idx : Nat), (pollLoop env token attempts idx).2.1 ≤ attempts ∧
      ∀ d ∈ (pollLoop env token attempts idx).2.2, d = 1 := by
  intro attempts
  induction attempts with
  | zero =>
    intro idx
    exact ⟨by simp [pollLoop], by simp [pollLoop]⟩
  | succ a ih =>
    intro idx
    simp only [pollLoop]
    cases env.poll idx with
    | exn m =>
      dsimp only
      exact ⟨by omega, by simp⟩
    | ok resp =>
      dsimp only
      by_cases hp : resp.status_id = some 1 ∨ resp.status_id = some 2
      · rw [if_pos hp]
        refine ⟨?_, ?_⟩
        · have := (ih (idx + 1)).1
          dsimp only
          omega
        · intro d hd
          rcases List.mem_cons.mp hd with h | h
          · exact h
          · exact (ih (idx + 1)).2 d h
      · rw [if_neg hp]
        exact ⟨by dsimp only; omega, by simp⟩

/-- C1 (amended): for every weight configuration whose base weights are
nonnegative and sum to 1, and all four phase inputs in [0,1],
`calculate_final_candidate_score` with all four phases present returns an
overall score equal to the exact weighted sum, and this value is never
outside [0,1].  (As frozen, the claim does not require the weights to be
nonnegative, and the [0,1] bound then fails; see the counterexample.) -/
theorem c1_full_weighted_sum_in_range (config : ScoringWeights) (p v c m : ℚ)
    (hsum : config.profile_weight + config.video_interview_weight +
      config.coding_challenge_weight + config.managerial_round_weight = 1)
    (hwp : 0 ≤ config.profile_weight) (hwv : 0 ≤ config.video_interview_weight)
    (hwc : 0 ≤ config.coding_challenge_weight) (hwm : 0 ≤ config.managerial_round_weight)
    (hp : 0 ≤ p ∧ p ≤ 1) (hv : 0 ≤ v ∧ v ≤ 1)
    (hc : 0 ≤ c ∧ c ≤ 1) (hm : 0 ≤ m ∧ m ≤ 1) :
    (calculate_final_candidate_score config p v c (some m)).overall_candidate_score =
      p * config.profile_weight + v * config.video_interview_weight +
      c * config.coding_challenge_weight + m * config.managerial_round_weight ∧
    0 ≤ (calculate_final_candidate_score config p v c (some m)).overall_candidate_score ∧
    (calculate_final_candidate_score config p v c (some m)).overall_candidate_score ≤ 1 := by
  have heq : (calculate_final_candidate_score config p v c (some m)).overall_candidate_score =
      p * config.profile_weight + v * config.video_interview_weight +
      c * config.coding_challenge_weight + m * config.managerial_round_weight := rfl
  refine ⟨heq, ?_, ?_⟩
  · rw [heq]
    have h1 := mul_nonneg hp.1 hwp
    have h2 := mul_nonneg hv.1 hwv
    have h3 := mul_nonneg hc.1 hwc
    have h4 := mul_nonneg hm.1 hwm
    linarith
  · rw [heq]
    have h1 := mul_le_of_le_one_left hwp hp.2
    have h2 := mul_le_of_le_one_left hwv hv.2
    have h3 := mul_le_of_le_one_left hwc hc.2
    have h4 := mul_le_of_le_one_left hwm hm.2
    linarith

/-- C1 witness: the amended statement at the configured default weights
with every phase score 1/2. -/
theorem c1_witness :
    (calculate_final_candidate_score SCORING_CONFIG (1/2) (1/2) (1/2)
        (some (1/2))).overall_candidate_score =
      (1/2) * (2/10) + (1/2) * (3/10) + (1/2) * (4/10) + (1/2) * (1/10) ∧
    0 ≤ (calculate_final_candidate_score SCORING_CONFIG (1/2) (1/2) (1/2)
        (some (1/2))).overall_candidate_score ∧
    (calculate_final_candidate_score SCORING_CONFIG (1/2) (1/2) (1/2)
        (some (1/2))).overall_candidate_score ≤ 1 := by
  have h := c1_full_weighted_sum_in_range SCORING_CONFIG (1/2) (1/2) (1/2) (1/2)
    (by norm_num [SCORING_CONFIG]) (by norm_num [SCORING_CONFIG])
    (by norm_num [SCORING_CONFIG]) (by norm_num [SCORING_CONFIG])
    (by norm_num [SCORING_CONFIG])
    (by norm_num) (by norm_num) (by norm_num) (by norm_num)
  refine ⟨?_, h.2.1, h.2.2⟩
  rw [h.1]
  norm_num [SCORING_CONFIG]

/-- C1 counterexample: the weights (2, -1, 0, 0) sum to 1 and the inputs
(1, 0, 0, 0) all lie in [0,1], yet the overall score is 2, outside
[0,1] — the frozen claim fails without a nonnegativity requirement on the
weights. -/
theorem c1_counterexample :
    ((2:ℚ) + (-1) + 0 + 0 = 1) ∧ ((0:ℚ) ≤ 1 ∧ (1:ℚ) ≤ 1) ∧
    (calculate_final_candidate_score ⟨2, -1, 0, 0⟩ 1 0 0 (some 0)).overall_candidate_score = 2 ∧
    ¬ (calculate_final_candidate_score ⟨2, -1, 0, 0⟩ 1 0 0
        (some 0)).overall_candidate_score ≤ 1 := by
  have heq : (calculate_final_candidate_score ⟨2, -1, 0, 0⟩ 1 0 0
      (some 0)).overall_candidate_score = 2 := by
    show (1:ℚ) * 2 + 0 * (-1) + 0 * 0 + 0 * 0 = 2
    norm_num
  refine ⟨by norm_num, ⟨by norm_num, by norm_num⟩, heq, ?_⟩
  rw [heq]
  norm_num

/-- C2 (amended): for every weight configuration with managerial weight
other than 1 and every profile/video/coding triple, the overall score
with `managerial_score = none` equals the overall score with
`managerial_score = some 0` divided by `1 - managerial_round_weight`;
moreover the two overall scores differ whenever the managerial weight is
nonzero and the weighted sum of the three phases is nonzero.  (As frozen,
the claim says omitting the phase is "never" equivalent to scoring it
zero, which fails at the all-zero triple; see the counterexample.) -/
theorem c2_renormalization_invariant (config : ScoringWeights) (p v c : ℚ)
    (hwm : config.managerial_round_weight ≠ 1) :
    (calculate_final_candidate_score config p v c none).overall_candidate_score =
      (calculate_final_candidate_score config p v c (some 0)).overall_candidate_score /
        (1 - config.managerial_round_weight) ∧
    (config.managerial_round_weight ≠ 0 →
      p * config.profile_weight + v * config.video_interview_weight +
        c * config.coding_challenge_weight ≠ 0 →
      (calculate_final_candidate_score config p v c none).overall_candidate_score ≠
        (calculate_final_candidate_score config p v c (some 0)).overall_candidate_score) := by
  have hsub : (1:ℚ) - config.managerial_round_weight ≠ 0 :=
    sub_ne_zero.mpr (Ne.symm hwm)
  have hnone : (calculate_final_candidate_score config p v c none).overall_candidate_score =
      (p * config.profile_weight + v * config.video_interview_weight +
        c * config.coding_challenge_weight) / (1 - config.managerial_round_weight) := by
    show p * (config.profile_weight / (1 - config.managerial_round_weight)) +
        v * (config.video_interview_weight / (1 - config.managerial_round_weight)) +
        c * (config.coding_challenge_weight / (1 - config.managerial_round_weight)) = _
    field_simp
  have hsome : (calculate_final_candidate_score config p v c (some 0)).overall_candidate_score =
      p * config.profile_weight + v * config.video_interview_weight +
        c * config.coding_challenge_weight := by
    show p * config.profile_weight + v * config.video_interview_weight +
        c * config.coding_challenge_weight + 0 * config.managerial_round_weight = _
    ring
  refine ⟨by rw [hnone, hsome], ?_⟩
  intro hm0 hS heqc
  rw [hnone, hsome] at heqc
  have h2 : p * config.profile_weight + v * config.video_interview_weight +
      c * config.coding_challenge_weight =
      (p * config.profile_weight + v * config.video_interview_weight +
        c * config.coding_challenge_weight) * (1 - config.managerial_round_weight) :=
    (div_eq_iff hsub).mp heqc
  have h3 : (p * config.profile_weight + v * config.video_interview_weight +
      c * config.coding_challenge_weight) * config.managerial_round_weight = 0 := by
    nlinarith [h2]
  rcases mul_eq_zero.mp h3 with h | h
  · exact hS h
  · exact hm0 h

/-- C2 witness: the amended statement at the default weights with the
triple (1, 0, 0): the renormalized score 2/9 differs from the
zero-managerial score 2/10 scaled only by 1/(1 - 1/10). -/
theorem c2_witness :
    (calculate_final_candidate_score SCORING_CONFIG 1 0 0 none).overall_candidate_score =
      (calculate_final_candidate_score SCORING_CONFIG 1 0 0
        (some 0)).overall_candidate_score / (1 - 1/10) ∧
    (calculate_final_candidate_score SCORING_CONFIG 1 0 0 none).overall_candidate_score ≠
      (calculate_final_candidate_score SCORING_CONFIG 1 0 0
        (some 0)).overall_candidate_score := by
  have h := c2_renormalization_invariant SCORING_CONFIG 1 0 0 (by norm_num [SCORING_CONFIG])
  refine ⟨?_, h.2 (by norm_num [SCORING_CONFIG]) (by norm_num [SCORING_CONFIG])⟩
  have h1 := h.1
  rw [show SCORING_CONFIG.managerial_round_weight = 1/10 from rfl] at h1
  exact h1

/-- C2 counterexample: at the all-zero triple, omitting the managerial
phase and scoring it zero produce the same overall score (both 0), so
the omission is not "never" equivalent to a zero score. -/
theorem c2_counterexample :
    (calculate_final_candidate_score SCORING_CONFIG 0 0 0 none).overall_candidate_score =
      (calculate_final_candidate_score SCORING_CONFIG 0 0 0
        (some 0)).overall_candidate_score ∧
    (calculate_final_candidate_score SCORING_CONFIG 0 0 0 none).overall_candidate_score = 0 := by
  constructor
  · show (0:ℚ) * (SCORING_CONFIG.profile_weight / (1 - SCORING_CONFIG.managerial_round_weight)) +
        0 * (SCORING_CONFIG.video_interview_weight / (1 - SCORING_CONFIG.managerial_round_weight)) +
        0 * (SCORING_CONFIG.coding_challenge_weight / (1 - SCORING_CONFIG.managerial_round_weight)) =
        0 * SCORING_CONFIG.profile_weight + 0 * SCORING_CONFIG.video_interview_weight +
        0 * SCORING_CONFIG.coding_challenge_weight + 0 * SCORING_CONFIG.managerial_round_weight
    ring
  · show (0:ℚ) * (SCORING_CONFIG.profile_weight / (1 - SCORING_CONFIG.managerial_round_weight)) +
        0 * (SCORING_CONFIG.video_interview_weight / (1 - SCORING_CONFIG.managerial_round_weight)) +
        0 * (SCORING_CONFIG.coding_challenge_weight / (1 - SCORING_CONFIG.managerial_round_weight)) = 0
    ring

/-- C3 (amended): `calculate_final_candidate_score` maps the overall
score to a label by fixed thresholds inclusive on the lower edge of each
band, the labels being "Excellent Candidate", "Strong Candidate", "Good
Candidate", "Average Candidate" and "Below Average Candidate"; overall
scores of exactly 0.85, 0.75, 0.65 and 0.50 map to the higher band and
0.49 maps to "Below Average Candidate".  (As frozen, the claim names the
labels without the " Candidate" suffix; see the counterexample.) -/
theorem c3_threshold_bands (config : ScoringWeights) (p v c : ℚ) (m : Option ℚ) :
    (∀ s : ℚ, (calculate_final_candidate_score config p v c m).overall_candidate_score = s →
      ((85/100 ≤ s →
          (calculate_final_candidate_score config p v c m).assessment = "Excellent Candidate") ∧
       (75/100 ≤ s ∧ s < 85/100 →
          (calculate_final_candidate_score config p v c m).assessment = "Strong Candidate") ∧
       (65/100 ≤ s ∧ s < 75/100 →
          (calculate_final_candidate_score config p v c m).assessment = "Good Candidate") ∧
       (1/2 ≤ s ∧ s < 65/100 →
          (calculate_final_candidate_score config p v c m).assessment = "Average Candidate") ∧
       (s < 1/2 →
          (calculate_final_candidate_score config p v c m).assessment = "Below Average Candidate"))) ∧
    (calculate_final_candidate_score SCORING_CONFIG (85/100) (85/100) (85/100)
        (some (85/100))).assessment = "Excellent Candidate" ∧
    (calculate_final_candidate_score SCORING_CONFIG (75/100) (75/100) (75/100)
        (some (75/100))).assessment = "Strong Candidate" ∧
    (calculate_final_candidate_score SCORING_CONFIG (65/100) (65/100) (65/100)
        (some (65/100))).assessment = "Good Candidate" ∧
    (calculate_final_candidate_score SCORING_CONFIG (50/100) (50/100) (50/100)
        (some (50/100))).assessment = "Average Candidate" ∧
    (calculate_final_candidate_score SCORING_CONFIG (49/100) (49/100) (49/100)
        (some (49/100))).assessment = "Below Average Candidate" := by
  have hgen : ∀ (cfg : ScoringWeights) (a b d : ℚ) (mm : Option ℚ) (s : ℚ),
      (calculate_final_candidate_score cfg a b d mm).overall_candidate_score = s →
      (calculate_final_candidate_score cfg a b d mm).assessment = assessmentOf s := by
    intro cfg a b d mm s hs
    rw [← hs]
    cases mm <;> rfl
  constructor
  · intro s hs
    rw [hgen config p v c m s hs]
    refine ⟨fun h => ?_, fun h => ?_, fun h => ?_, fun h => ?_, fun h => ?_⟩ <;>
      simp only [assessmentOf] <;>
      split_ifs with h1 h2 h3 h4 <;> first | rfl | linarith [h.1, h.2] | linarith
  · have e85 : (calculate_final_candidate_score SCORING_CONFIG (85/100) (85/100) (85/100)
        (some (85/100))).overall_candidate_score = 85/100 := by
      show (85:ℚ)/100 * (2/10) + 85/100 * (3/10) + 85/100 * (4/10) + 85/100 * (1/10) = 85/100
      norm_num
    have e75 : (calculate_final_candidate_score SCORING_CONFIG (75/100) (75/100) (75/100)
        (some (75/100))).overall_candidate_score = 75/100 := by
      show (75:ℚ)/100 * (2/10) + 75/100 * (3/10) + 75/100 * (4/10) + 75/100 * (1/10) = 75/100
      norm_num
    have e65 : (calculate_final_candidate_score SCORING_CONFIG (65/100) (65/100) (65/100)
        (some (65/100))).overall_candidate_score = 65/100 := by
      show (65:ℚ)/100 * (2/10) + 65/100 * (3/10) + 65/100 * (4/10) + 65/100 * (1/10) = 65/100
      norm_num
    have e50 : (calculate_final_candidate_score SCORING_CONFIG (50/100) (50/100) (50/100)
        (some (50/100))).overall_candidate_score = 50/100 := by
      show (50:ℚ)/100 * (2/10) + 50/100 * (3/10) + 50/100 * (4/10) + 50/100 * (1/10) = 50/100
      norm_num
    have e49 : (calculate_final_candidate_score SCORING_CONFIG (49/100) (49/100) (49/100)
        (some (49/100))).overall_candidate_score = 49/100 := by
      show (49:ℚ)/100 * (2/10) + 49/100 * (3/10) + 49/100 * (4/10) + 49/100 * (1/10) = 49/100
      norm_num
    refine ⟨?_, ?_, ?_, ?_, ?_⟩
    · rw [hgen _ _ _ _ _ _ e85]
      simp only [assessmentOf]
      rw [if_pos (by norm_num)]
    · rw [hgen _ _ _ _ _ _ e75]
      simp only [assessmentOf]
      rw [if_neg (by norm_num), if_pos (by norm_num)]
    · rw [hgen _ _ _ _ _ _ e65]
      simp only [assessmentOf]
      rw [if_neg (by norm_num), if_neg (by norm_num), if_pos (by norm_num)]
    · rw [hgen _ _ _ _ _ _ e50]
      simp only [assessmentOf]
      rw [if_neg (by norm_num), if_neg (by norm_num), if_neg (by norm_num),
        if_pos (by norm_num)]
    · rw [hgen _ _ _ _ _ _ e49]
      simp only [assessmentOf]
      rw [if_neg (by norm_num), if_neg (by norm_num), if_neg (by norm_num),
        if_neg (by norm_num)]

/-- C3 witness: the amended statement applied at the default weights
with every phase score 9/10 yields the excellent label. -/
theorem c3_witness :
    (calculate_final_candidate_score SCORING_CONFIG (9/10) (9/10) (9/10)
        (some (9/10))).assessment = "Excellent Candidate" := by
  have h := (c3_threshold_bands SCORING_CONFIG (9/10) (9/10) (9/10) (some (9/10))).1 (9/10)
    (by show (9:ℚ)/10 * (2/10) + 9/10 * (3/10) + 9/10 * (4/10) + 9/10 * (1/10) = 9/10
        norm_num)
  exact h.1 (by norm_num)

/-- C3 counterexample: an overall score of exactly 0.85 is labelled
"Excellent Candidate", not "Excellent" as the frozen claim states. -/
theorem c3_counterexample :
    (calculate_final_candidate_score SCORING_CONFIG (85/100) (85/100) (85/100)
        (some (85/100))).overall_candidate_score = 85/100 ∧
    (calculate_final_candidate_score SCORING_CONFIG (85/100) (85/100) (85/100)
        (some (85/100))).assessment = "Excellent Candidate" ∧
    "Excellent Candidate" ≠ "Excellent" := by
  have e85 : (calculate_final_candidate_score SCORING_CONFIG (85/100) (85/100) (85/100)
      (some (85/100))).overall_candidate_score = 85/100 := by
    show (85:ℚ)/100 * (2/10) + 85/100 * (3/10) + 85/100 * (4/10) + 85/100 * (1/10) = 85/100
    norm_num
  have hass : (calculate_final_candidate_score SCORING_CONFIG (85/100) (85/100) (85/100)
      (some (85/100))).assessment =
      assessmentOf ((85:ℚ)/100 * (2/10) + 85/100 * (3/10) + 85/100 * (4/10) +
        85/100 * (1/10)) := rfl
  refine ⟨e85, ?_, by decide⟩
  rw [hass, show (85:ℚ)/100 * (2/10) + 85/100 * (3/10) + 85/100 * (4/10) +
    85/100 * (1/10) = 85/100 by norm_num]
  simp only [assessmentOf]
  rw [if_pos (by norm_num)]

/-- C8 (confirmed): `calculate_profile_score` averages exactly the
strictly positive ones of the three source scores, and with only a
GitHub score present and positive the overall profile score equals that
GitHub score; in particular a lone GitHub score of 0.8 yields 0.8. -/
theorem c8_profile_mean_of_positives
    (github_analysis : Option GithubAnalysis) (resume_analysis : Option ResumeAnalysis)
    (linkedin_analysis : Option LinkedinAnalysis) (gq : ℚ) (hg : 0 < gq) :
    ((calculate_profile_score github_analysis resume_analysis
        linkedin_analysis).overall_profile_score =
      meanOfPositives
        [(calculate_profile_score github_analysis resume_analysis
            linkedin_analysis).github_score,
         (calculate_profile_score github_analysis resume_analysis
            linkedin_analysis).resume_score,
         (calculate_profile_score github_analysis resume_analysis
            linkedin_analysis).linkedin_score]) ∧
    (calculate_profile_score (some ⟨some gq⟩) none none).overall_profile_score = gq ∧
    (calculate_profile_score (some ⟨some (8/10)⟩) none none).overall_profile_score = 8/10 := by
  refine ⟨rfl, ?_, ?_⟩
  · show meanOfPositives [gq, 0, 0] = gq
    simp [meanOfPositives, List.filter, hg]
  · show meanOfPositives [8/10, 0, 0] = (8:ℚ)/10
    norm_num [meanOfPositives, List.filter]

/-- C8 witness: the confirmed statement instantiated at a lone GitHub
score of 0.8. -/
theorem c8_witness :
    (0:ℚ) < 8/10 ∧
    (calculate_profile_score (some ⟨some (8/10)⟩) none none).overall_profile_score = 8/10 := by
  refine ⟨by norm_num, ?_⟩
  exact (c8_profile_mean_of_positives (some ⟨some (8/10)⟩) none none (8/10) (by norm_num)).2.1

/-- Helper: every `execute_code` call polls at most 10 times and each
recorded sleep lasts one second. -/
theorem execute_code_trace_bound (source_code language stdin : String) (env : JudgeEnv) :
    (execute_code source_code language stdin env).2.pollCalls ≤ 10 ∧
    ∀ d ∈ (execute_code source_code language stdin env).2.sleeps, d = 1 := by
  unfold execute_code
  by_cases hl : get_language_id language = none ∨ get_language_id language = some 0
  · rw [if_pos hl]
    exact ⟨by simp, by simp⟩
  · rw [if_neg hl]
    cases henv : env.post with
    | exn m => exact ⟨by simp, by simp⟩
    | ok tok =>
      cases tok with
      | none => exact ⟨by simp, by simp⟩
      | some t =>
        dsimp only
        by_cases ht : t = ""
        · rw [if_pos ht]
          exact ⟨by simp, by simp⟩
        · rw [if_neg ht]
          have hb := pollLoop_calls_le env t 10 0
          cases hr : (pollLoop env t 10 0).1 with
          | error m =>
            refine ⟨?_, ?_⟩
            · dsimp only
              exact hb.1
            · dsimp only
              exact hb.2
          | ok res =>
            refine ⟨?_, ?_⟩
            · dsimp only
              exact hb.1
            · dsimp only
              exact hb.2

/-- C4 (amended): the polling loop of `execute_code` is bounded: at most
10 polls are ever made and every sleep between polls lasts exactly one
second; a judge that reports Processing for 9 polls and a terminal
status on the 10th yields a success result after exactly 10 polls, while
a judge that reports Processing on all polls yields, after exactly 10
polls, a status of "error" with the message "Timeout waiting for
execution results".  (As frozen, the claim spells the message in lower
case; see the counterexample.) -/
theorem c4_bounded_polling (source_code language stdin : String) (env : JudgeEnv) :
    (execute_code source_code language stdin env).2.pollCalls ≤ 10 ∧
    (∀ d ∈ (execute_code source_code language stdin env).2.sleeps, d = 1) ∧
    (execute_code_result "print(1)" "python" "" (slowJudge 9)).status = "success" ∧
    (execute_code "print(1)" "python" "" (slowJudge 9)).2.pollCalls = 10 ∧
    (execute_code_result "print(1)" "python" "" stuckJudge).status = "error" ∧
    (execute_code_result "print(1)" "python" "" stuckJudge).message =
      some "Timeout waiting for execution results" ∧
    (execute_code "print(1)" "python" "" stuckJudge).2.pollCalls = 10 := by
  have hb := execute_code_trace_bound source_code language stdin env
  exact ⟨hb.1, hb.2, by decide, by decide, by decide, by decide, by decide⟩

/-- C4 witness: the bound applied to the stuck judge: its 10 polls are
within the cap and the sleep before the second poll lasted one second. -/
theorem c4_witness :
    (execute_code "print(1)" "python" "" stuckJudge).2.pollCalls ≤ 10 ∧ (1:Nat) = 1 := by
  have h := c4_bounded_polling "print(1)" "python" "" stuckJudge
  exact ⟨h.1, h.2.1 1 (by decide)⟩

/-- C4 counterexample: the timeout message of `execute_code` is
"Timeout waiting for execution results" with a capital T, not the
lower-case "timeout waiting for execution results" the frozen claim
states. -/
theorem c4_counterexample :
    (execute_code_result "print(1)" "python" "" stuckJudge).status = "error" ∧
    (execute_code_result "print(1)" "python" "" stuckJudge).message =
      some "Timeout waiting for execution results" ∧
    (execute_code_result "print(1)" "python" "" stuckJudge).message ≠
      some "timeout waiting for execution results" := by
  exact ⟨by decide, by decide, by decide⟩

/-- C7 (amended): for every input whose language name does not map to a
supported-language identifier, `execute_code` returns (rather than
raising an exception type of its own) the error-result dictionary with
status "error" and message "Unsupported language: " followed by the
language name, before any network call: the trace records zero POSTs,
zero polls and no sleeps, so no remote submission is created. -/
theorem c7_unsupported_language (source_code language stdin : String) (env : JudgeEnv)
    (h : get_language_id language = none) :
    (execute_code source_code language stdin env).1 =
      PyOutcome.returns (errorResult ("Unsupported language: " ++ language)) ∧
    (execute_code source_code language stdin env).2 = ⟨0, 0, []⟩ := by
  unfold execute_code
  rw [if_pos (Or.inl h)]
  exact ⟨rfl, rfl⟩

/-- C7 witness: the amended statement at the unsupported language
"cobol" with an unreachable judge. -/
theorem c7_witness :
    get_language_id "cobol" = none ∧
    (execute_code "print(1)" "cobol" "" unreachableJudge).1 =
      PyOutcome.returns (errorResult "Unsupported language: cobol") ∧
    (execute_code "print(1)" "cobol" "" unreachableJudge).2 = ⟨0, 0, []⟩ := by
  have h := c7_unsupported_language "print(1)" "cobol" "" unreachableJudge (by decide)
  exact ⟨by decide, h.1, h.2⟩

/-- C7 counterexample: on an unsupported language the call returns an
error-result value and performs no network call, but it does not fail
with an `UnsupportedLanguageError` exception — no such exception exists
in the code, so the frozen claim misstates the failure mode. -/
theorem c7_counterexample :
    (execute_code "print(1)" "cobol" "" unreachableJudge).1 =
      PyOutcome.returns (errorResult "Unsupported language: cobol") ∧
    (execute_code "print(1)" "cobol" "" unreachableJudge).2.postCalls = 0 ∧
    (execute_code "print(1)" "cobol" "" unreachableJudge).1 ≠
      PyOutcome.raises "UnsupportedLanguageError" := by
  have h1 : (execute_code "print(1)" "cobol" "" unreachableJudge).1 =
      PyOutcome.returns (errorResult "Unsupported language: cobol") := rfl
  refine ⟨h1, rfl, ?_⟩
  rw [h1]
  intro hcontra
  exact PyOutcome.noConfusion hcontra

/-- C6 (confirmed): `match_candidate_to_job` scores each tier as the
matched fraction (1.0 on an empty tier) and combines them with the fixed
0.7/0.3 weights; for essential skills [A, B], preferred skills [C] and a
candidate with confidence only for A it returns essential 0.5,
preferred 0.0 and overall 0.35. -/
theorem c6_skill_match_scores (candidate_skills : List CandidateSkill)
    (job_skills : JobSkills) :
    ((match_candidate_to_job candidate_skills job_skills).essential_match_score =
      if 0 < job_skills.essential_skills.length then
        ((match_candidate_to_job candidate_skills job_skills).essential_matches.length : ℚ) /
          (job_skills.essential_skills.length : ℚ)
      else 1) ∧
    ((match_candidate_to_job candidate_skills job_skills).preferred_match_score =
      if 0 < job_skills.preferred_skills.length then
        ((match_candidate_to_job candidate_skills job_skills).preferred_matches.length : ℚ) /
          (job_skills.preferred_skills.length : ℚ)
      else 1) ∧
    ((match_candidate_to_job candidate_skills job_skills).overall_match_score =
      (match_candidate_to_job candidate_skills job_skills).essential_match_score * (7/10) +
      (match_candidate_to_job candidate_skills job_skills).preferred_match_score * (3/10)) ∧
    (match_candidate_to_job [⟨"A", 9/10⟩]
        ⟨[⟨"A", none⟩, ⟨"B", none⟩], [⟨"C", none⟩]⟩).essential_match_score = 1/2 ∧
    (match_candidate_to_job [⟨"A", 9/10⟩]
        ⟨[⟨"A", none⟩, ⟨"B", none⟩], [⟨"C", none⟩]⟩).preferred_match_score = 0 ∧
    (match_candidate_to_job [⟨"A", 9/10⟩]
        ⟨[⟨"A", none⟩, ⟨"B", none⟩], [⟨"C", none⟩]⟩).overall_match_score = 35/100 := by
  have he : (match_candidate_to_job [⟨"A", 9/10⟩]
      ⟨[⟨"A", none⟩, ⟨"B", none⟩], [⟨"C", none⟩]⟩).essential_match_score =
      ((1:Nat) : ℚ) / ((2:Nat) : ℚ) := rfl
  have hp : (match_candidate_to_job [⟨"A", 9/10⟩]
      ⟨[⟨"A", none⟩, ⟨"B", none⟩], [⟨"C", none⟩]⟩).preferred_match_score =
      ((0:Nat) : ℚ) / ((1:Nat) : ℚ) := rfl
  have ho : (match_candidate_to_job [⟨"A", 9/10⟩]
      ⟨[⟨"A", none⟩, ⟨"B", none⟩], [⟨"C", none⟩]⟩).overall_match_score =
      ((1:Nat) : ℚ) / ((2:Nat) : ℚ) * (7/10) + ((0:Nat) : ℚ) / ((1:Nat) : ℚ) * (3/10) := rfl
  refine ⟨rfl, rfl, rfl, ?_, ?_, ?_⟩
  · rw [he]; norm_num
  · rw [hp]; norm_num
  · rw [ho]; norm_num

/-- C5 (confirmed): in `run_test_cases` every case is executed exactly
once, in order; a non-error case is marked passed exactly when the
stripped actual stdout equals the stripped expected output; an error
case is recorded as failed with the error message attached; and the
success rate is the passed count over the total count, 0 on an empty
case list. -/
theorem c5_test_case_semantics (source_code language : String)
    (test_cases : List TestCase) (envs : Nat → JudgeEnv) :
    (run_test_cases source_code language test_cases envs).results.length =
      test_cases.length ∧
    (∀ i, ∀ hi : i < test_cases.length,
      ∀ hi2 : i < (run_test_cases source_code language test_cases envs).results.length,
      (run_test_cases source_code language test_cases envs).results.get ⟨i, hi2⟩ =
        run_single_case source_code language i (test_cases.get ⟨i, hi⟩) (envs i)) ∧
    (∀ (i : Nat) (tc : TestCase) (env : JudgeEnv),
      ((execute_code_result source_code language (tc.input.getD "") env).status ≠ "error" →
        ((run_single_case source_code language i tc env).passed = true ↔
          pyStrip ((execute_code_result source_code language
              (tc.input.getD "") env).stdout.getD "") =
            pyStrip (tc.expected_output.getD ""))) ∧
      ((execute_code_result source_code language (tc.input.getD "") env).status = "error" →
        (run_single_case source_code language i tc env).passed = false ∧
        (run_single_case source_code language i tc env).error_message =
          some ((execute_code_result source_code language
            (tc.input.getD "") env).message.getD "Unknown error") ∧
        (run_single_case source_code language i tc env).actual_output = "Execution error")) ∧
    (run_test_cases source_code language test_cases envs).passed_test_cases =
      ((run_test_cases source_code language test_cases envs).results.filter
        (fun r => r.passed)).length ∧
    (run_test_cases source_code language test_cases envs).success_rate =
      (if 0 < test_cases.length then
        ((run_test_cases source_code language test_cases envs).passed_test_cases : ℚ) /
          (test_cases.length : ℚ)
      else 0) ∧
    (test_cases = [] →
      (run_test_cases source_code language test_cases envs).success_rate = 0) := by
  refine ⟨by simp [run_test_cases], ?_, ?_, rfl, rfl, ?_⟩
  · intro i hi hi2
    simp [run_test_cases, List.get_eq_getElem, List.getElem_map, List.getElem_enum]
  · intro i tc env
    constructor
    · intro hs
      unfold run_single_case
      rw [if_neg hs]
      exact decide_eq_true_iff
    · intro hs
      unfold run_single_case
      rw [if_pos hs]
      exact ⟨rfl, rfl, rfl⟩
  · intro h
    subst h
    rfl

/-- C5 witness: the per-case characterization applied to a single test
case on an immediately accepting judge, and the empty-list rate. -/
theorem c5_witness :
    ((run_single_case "print(42)" "python" 0 ⟨some "1", some "42"⟩ (slowJudge 0)).passed = true ↔
      pyStrip ((execute_code_result "print(42)" "python" "1" (slowJudge 0)).stdout.getD "") =
        pyStrip "42") ∧
    (run_test_cases "print(42)" "python" [] (fun _ => slowJudge 0)).success_rate = 0 := by
  have h := c5_test_case_semantics "print(42)" "python" [⟨some "1", some "42"⟩]
    (fun _ => slowJudge 0)
  have h0 := c5_test_case_semantics "print(42)" "python" [] (fun _ => slowJudge 0)
  have hc := (h.2.2.1 0 ⟨some "1", some "42"⟩ (slowJudge 0)).1 (by decide)
  exact ⟨by simpa using hc, h0.2.2.2.2.2 rfl⟩

/-- C10 (confirmed): `run_test_cases` returns the top-level status
"success" for every input; with an unreachable judge every case is
recorded as failed with the transport error message and the success rate
is 0, while the status is still "success" — indistinguishable at the
top-level status from a submission that fails every test. -/
theorem c10_status_always_success (source_code language : String)
    (test_cases : List TestCase) (envs : Nat → JudgeEnv) :
    (run_test_cases source_code language test_cases envs).status = "success" ∧
    (run_test_cases "print(42)" "python" [⟨some "1", some "42"⟩, ⟨some "2", some "43"⟩]
        (fun _ => unreachableJudge)).status = "success" ∧
    (run_test_cases "print(42)" "python" [⟨some "1", some "42"⟩, ⟨some "2", some "43"⟩]
        (fun _ => unreachableJudge)).success_rate = 0 ∧
    ((run_test_cases "print(42)" "python" [⟨some "1", some "42"⟩, ⟨some "2", some "43"⟩]
        (fun _ => unreachableJudge)).results.all
      (fun r => !r.passed &&
        r.error_message = some "Request error: connection refused")) = true := by
  have hr : (run_test_cases "print(42)" "python"
      [⟨some "1", some "42"⟩, ⟨some "2", some "43"⟩]
      (fun _ => unreachableJudge)).success_rate =
      ((0:Nat) : ℚ) / ((2:Nat) : ℚ) := rfl
  refine ⟨rfl, rfl, ?_, by decide⟩
  rw [hr]
  norm_num

/-- C9 (confirmed): the video and coding calculators are total: an
absent key defaults to the numeric zero, and for every input dictionary
(malformed values included) the result is either the clean weighted sum
of the numerically coerced component scores with no error field, or the
zeroed result annotated with an error field — never an escaping
exception. -/
theorem c9_calculators_never_raise (video_analysis code_analysis test_results : PyDict)
    (key : String) :
    (video_analysis.lookup key = none →
      pyGet video_analysis key (PyVal.num 0) = PyVal.num 0) ∧
    (((calculate_video_interview_score video_analysis).lookup "error" = none ∧
      ∃ t c r : ℚ,
        (pyGet video_analysis "technical_knowledge_score" (PyVal.num 0)).toNum = some t ∧
        (pyGet video_analysis "communication_score" (PyVal.num 0)).toNum = some c ∧
        (pyGet video_analysis "logical_reasoning_score" (PyVal.num 0)).toNum = some r ∧
        (calculate_video_interview_score video_analysis).lookup "overall_video_score" =
          some (PyVal.num (t * (5/10) + c * (3/10) + r * (2/10)))) ∨
     ((calculate_video_interview_score video_analysis).lookup "error" =
        some (PyVal.str typeErrorMsg) ∧
      (calculate_video_interview_score video_analysis).lookup "overall_video_score" =
        some (PyVal.num 0))) ∧
    (((calculate_coding_challenge_score code_analysis test_results).lookup "error" = none ∧
      ∃ cq tq timeq spaceq styleq : ℚ,
        (pyGet code_analysis "correctness_score" (PyVal.num 0)).toNum = some cq ∧
        (pyGet test_results "success_rate" (PyVal.num 0)).toNum = some tq ∧
        (pyGet code_analysis "time_complexity_score" (PyVal.num 0)).toNum = some timeq ∧
        (pyGet code_analysis "space_complexity_score" (PyVal.num 0)).toNum = some spaceq ∧
        (pyGet code_analysis "code_style_score" (PyVal.num 0)).toNum = some styleq ∧
        (calculate_coding_challenge_score code_analysis test_results).lookup
            "overall_coding_score" =
          some (PyVal.num (cq * (4/10) + tq * (3/10) + timeq * (1/10) +
            spaceq * (1/10) + styleq * (1/10)))) ∨
     ((calculate_coding_challenge_score code_analysis test_results).lookup "error" =
        some (PyVal.str typeErrorMsg) ∧
      (calculate_coding_challenge_score code_analysis test_results).lookup
        "overall_coding_score" = some (PyVal.num 0))) := by
  refine ⟨fun h => by simp [pyGet, h], ?_, ?_⟩
  · simp only [calculate_video_interview_score]
    rcases h1 : (pyGet video_analysis "technical_knowledge_score" (PyVal.num 0)).toNum
      with _ | t
    · right
      exact ⟨rfl, rfl⟩
    · rcases h2 : (pyGet video_analysis "communication_score" (PyVal.num 0)).toNum
        with _ | c
      · right
        exact ⟨rfl, rfl⟩
      · rcases h3 : (pyGet video_analysis "logical_reasoning_score" (PyVal.num 0)).toNum
          with _ | r
        · right
          exact ⟨rfl, rfl⟩
        · left
          exact ⟨rfl, t, c, r, rfl, rfl, rfl, rfl⟩
  · simp only [calculate_coding_challenge_score]
    rcases h1 : (pyGet code_analysis "correctness_score" (PyVal.num 0)).toNum with _ | cq
    · right
      exact ⟨rfl, rfl⟩
    · rcases h2 : (pyGet test_results "success_rate" (PyVal.num 0)).toNum with _ | tq
      · right
        exact ⟨rfl, rfl⟩
      · rcases h3 : (pyGet code_analysis "time_complexity_score" (PyVal.num 0)).toNum
          with _ | timeq
        · right
          exact ⟨rfl, rfl⟩
        · rcases h4 : (pyGet code_analysis "space_complexity_score" (PyVal.num 0)).toNum
            with _ | spaceq
          · right
            exact ⟨rfl, rfl⟩
          · rcases h5 : (pyGet code_analysis "code_style_score" (PyVal.num 0)).toNum
              with _ | styleq
            · right
              exact ⟨rfl, rfl⟩
            · left
              exact ⟨rfl, cq, tq, timeq, spaceq, styleq, rfl, rfl, rfl, rfl, rfl, rfl⟩

/-- C9 witness: a malformed video dictionary (a string where a score is
expected): the absent-key default is the numeric zero and the result is
the zeroed dictionary with the error field. -/
theorem c9_witness :
    pyGet [("technical_knowledge_score", PyVal.str "high")] "communication_score"
        (PyVal.num 0) = PyVal.num 0 ∧
    (calculate_video_interview_score
        [("technical_knowledge_score", PyVal.str "high")]).lookup "error" =
      some (PyVal.str typeErrorMsg) ∧
    (calculate_video_interview_score
        [("technical_knowledge_score", PyVal.str "high")]).lookup "overall_video_score" =
      some (PyVal.num 0) := by
  have h := c9_calculators_never_raise [("technical_knowledge_score", PyVal.str "high")]
    [] [] "communication_score"
  refine ⟨h.1 (by decide), ?_⟩
  rcases h.2.1 with ⟨_, t, c, r, ht, _⟩ | ⟨he, ho⟩
  · exfalso
    have hnone : (pyGet [("technical_knowledge_score", PyVal.str "high")]
        "technical_knowledge_score" (PyVal.num 0)).toNum = none := rfl
    rw [hnone] at ht
    exact Option.noConfusion ht
  · exact ⟨he, ho⟩

end AIInterviewMaster
